import Mathlib

/-!
Shallow embedding of the data-synchronization core of the tommyfx-beauty-shop
storefront: the admin feedback moderation view (`fetchFeedback`,
`updateFeedbackStatus`, `deleteFeedback`), the public testimonial view
(`fetchApprovedFeedback` and its realtime subscription effects), and the
customer feedback submission path (`handleFeedbackSubmit`).

Remote state is modelled as explicit lists of rows; the generated backend
client query combinators (eq, order, limit, in, single) are given
their standard relational semantics over those lists.  Asynchronous handlers
are embedded as pure functions from their inputs (previous local state, table
contents, failure flags for each remote call) to the sequence of observable
events they perform (remote writes, local state installs, notifications) and
the final local state.  JavaScript truthiness and strict equality are made
explicit where the code relies on them.
-/

/-- A raw JavaScript value as it can arrive from the query layer in the
`approved` column (the admin code guards with `item.approved === true`). -/
inductive Raw where
  | vTrue
  | vFalse
  | vNull
  | vUndefined
  | vNum (n : Int)
  | vStr (s : String)
deriving DecidableEq

/-- JavaScript strict equality against the literal `true`
(`item.approved === true` in the admin fetch). -/
def jsStrictEqTrue : Raw → Bool
  | Raw.vTrue => true
  | _ => false

/-- JavaScript truthiness of an optional string (`if (item.user_id)`,
`item.products?.name ? ... : ...`): `null`/`undefined` and the empty string
are falsy. -/
def jsTruthy : Option String → Bool
  | some s => s != ""
  | none => false

/-- JavaScript `x || d` on an optional string (`userData.full_name || name`):
`null`, `undefined` and `""` fall through to the default. -/
def jsOrElse : Option String → String → String
  | some s, d => if s == "" then d else s
  | none, d => d

/-- A row of the `feedback` table as selected by both views
(`id, comment, rating, user_id, product_id, created_at, approved,
products(name)`).  `created_at` is a timestamp modelled as `Nat`;
`products` is the joined product name (`null` when no product is attached). -/
structure FeedbackRow where
  id : String
  comment : String
  rating : Nat
  user_id : Option String
  product_id : Option String
  created_at : Nat
  approved : Raw
  products : Option String
deriving DecidableEq

/-- A row of the `profiles` table as selected by the secondary lookups
(`id, full_name, email`); `full_name` and `email` may be `null`. -/
structure ProfileRow where
  id : String
  full_name : Option String
  email : Option String
deriving DecidableEq

/-- The ordering used by the order-by created_at descending query modifier:
most recent first. -/
def rowLatest (a b : FeedbackRow) : Prop := b.created_at ≤ a.created_at

instance : DecidableRel rowLatest := fun a b => Nat.decLe b.created_at a.created_at

instance : IsTotal FeedbackRow rowLatest :=
  ⟨fun a b => Nat.le_total b.created_at a.created_at⟩

instance : IsTrans FeedbackRow rowLatest :=
  ⟨fun _ _ _ h1 h2 => Nat.le_trans h2 h1⟩

/-- The enriched record type of the admin view (`interface FeedbackItem`). -/
structure FeedbackItem where
  id : String
  created_at : Nat
  name : String
  email : String
  message : String
  approved : Bool
  user_id : Option String
  product_id : Option String
  rating : Nat
  product_name : String
deriving DecidableEq

/-- Semantics of the single-row profiles lookup (select filtered to id equal
to uid, with the single modifier): a row exactly when the filter matches
exactly one row, otherwise the call reports an error (modelled as `none`). -/
def singleProfile (pt : List ProfileRow) (uid : String) : Option ProfileRow :=
  match pt.filter (fun p => p.id == uid) with
  | [p] => some p
  | _ => none

/-- The per-row enrichment of the admin fetch loop: start from the fallbacks
`"Anonymous User"`/`"No Email"`, and only when `item.user_id` is truthy and
the single-row profile lookup succeeds substitute `full_name || name` and
`email || email`.  `lookupFails uid` models the lookup throwing or erroring.
`approved` is normalised with strict equality against `true`, and
`product_name` falls back to `"General Feedback"`. -/
def adminEnrichRow (pt : List ProfileRow) (lookupFails : String → Bool)
    (r : FeedbackRow) : FeedbackItem :=
  let resolved :=
    if jsTruthy r.user_id then
      let uid := r.user_id.getD ""
      if lookupFails uid then ("Anonymous User", "No Email")
      else
        match singleProfile pt uid with
        | some p => (jsOrElse p.full_name "Anonymous User", jsOrElse p.email "No Email")
        | none => ("Anonymous User", "No Email")
    else ("Anonymous User", "No Email")
  { id := r.id
    created_at := r.created_at
    name := resolved.1
    email := resolved.2
    message := r.comment
    approved := jsStrictEqTrue r.approved
    user_id := r.user_id
    product_id := r.product_id
    rating := r.rating
    product_name := jsOrElse r.products "General Feedback" }

/-- The admin primary query: all `feedback` rows ordered `created_at`
descending (no predicate, no limit). -/
def sortFeedbackDesc (ft : List FeedbackRow) : List FeedbackRow :=
  List.insertionSort rowLatest ft

/-- Outcome of one run of the admin fetch: the record list left installed in
component state, how many `profiles` queries were issued, and the titles of
destructive notifications raised. -/
structure AdminFetchResult where
  installed : List FeedbackItem
  profileQueries : Nat
  toasts : List String
deriving DecidableEq

/-- The admin `fetchFeedback`: on primary-query failure the catch block only
raises the error toast (the previously installed list is left untouched);
otherwise every row is enriched, issuing one `profiles` query per row whose
`user_id` is truthy. -/
def fetchFeedback (prev : List FeedbackItem) (ft : List FeedbackRow)
    (pt : List ProfileRow) (primaryFail : Bool) (lookupFails : String → Bool) :
    AdminFetchResult :=
  if primaryFail then
    { installed := prev, profileQueries := 0, toasts := ["Error"] }
  else
    let rows := sortFeedbackDesc ft
    { installed := rows.map (adminEnrichRow pt lookupFails)
      profileQueries := rows.countP (fun r => jsTruthy r.user_id)
      toasts := [] }

/-- The read-only projection rendered by the public testimonial view. -/
structure Testimonial where
  id : String
  author : String
  role : String
  content : String
  rating : Nat
  product_name : Option String
  date : String
deriving DecidableEq

/-- The role string of a testimonial: when the joined product name is truthy
it is that name prefixed with "on ", else the fixed "on TommyFX Beauty". -/
def roleOf (r : FeedbackRow) : String :=
  if jsTruthy r.products then "on " ++ r.products.getD "" else "on TommyFX Beauty"

/-- The first mapping pass of `fetchApprovedFeedback`: the author defaults to
`"Anonymous Customer"` and is only later replaced from the profile map.
`fmt` stands for `new Date(...).toLocaleDateString()`. -/
def mkTestimonial (fmt : Nat → String) (r : FeedbackRow) : Testimonial :=
  { id := r.id
    author := "Anonymous Customer"
    role := roleOf r
    content := r.comment
    rating := r.rating
    product_name := r.products
    date := fmt r.created_at }

/-- The testimonial primary query: rows whose approved column equals the
boolean true, ordered by created_at descending, limited to 10 rows. -/
def selectApprovedFeedback (ft : List FeedbackRow) : List FeedbackRow :=
  (List.insertionSort rowLatest
    (ft.filter (fun r => jsStrictEqTrue r.approved))).take 10

/-- The `profileMap` built by `profilesData.forEach(...)` read back at a key:
assignment means a later row with the same id wins. -/
def profileMapLookup (fetched : List ProfileRow) (uid : String) : Option ProfileRow :=
  fetched.reverse.find? (fun p => p.id == uid)

/-- The second mapping pass of `fetchApprovedFeedback`: re-find the feedback
row by id, and when its `user_id` is truthy and present in the profile map
replace the author with the profile full_name, falling back to
"Anonymous Customer" when that is null or empty. -/
def enrichAuthor (rows : List FeedbackRow) (fetched : List ProfileRow)
    (t : Testimonial) : Testimonial :=
  match rows.find? (fun item => item.id == t.id) with
  | some fb =>
    if jsTruthy fb.user_id then
      match profileMapLookup fetched (fb.user_id.getD "") with
      | some p => { t with author := jsOrElse p.full_name "Anonymous Customer" }
      | none => t
    else t
  | none => t

/-- Outcome of one run of the testimonial fetch. -/
structure TestimonialFetchResult where
  installed : List Testimonial
  profileQueries : Nat
  toasts : List String
deriving DecidableEq

/-- The testimonial `fetchApprovedFeedback`: primary-query failure installs an
empty list and raises the error toast; zero rows install an empty list; the
profile enrichment issues a single batched id-membership (IN) query only
when some returned row has a non-null `user_id`, and its failure leaves the
fallback authors in place. -/
def fetchApprovedFeedback (fmt : Nat → String) (ft : List FeedbackRow)
    (pt : List ProfileRow) (primaryFail profilesFail : Bool) :
    TestimonialFetchResult :=
  if primaryFail then
    { installed := [], profileQueries := 0, toasts := ["Error"] }
  else
    let rows := selectApprovedFeedback ft
    if rows.isEmpty then
      { installed := [], profileQueries := 0, toasts := [] }
    else
      let mapped := rows.map (mkTestimonial fmt)
      let userIds := rows.filterMap FeedbackRow.user_id
      if userIds.isEmpty then
        { installed := mapped, profileQueries := 0, toasts := [] }
      else
        let fetched := pt.filter (fun p => userIds.contains p.id)
        if profilesFail then
          { installed := mapped, profileQueries := 1, toasts := [] }
        else
          { installed := mapped.map (enrichAuthor rows fetched)
            profileQueries := 1, toasts := [] }

/-- Observable events performed by the handlers, in program order. -/
inductive Ev where
  | setUpdating (id : Option String)
  | remoteUpdate (id : String) (approved : Bool)
  | remoteDelete (id : String)
  | remoteInsert (user_id : String) (rating : Nat) (comment : String) (approved : Bool)
  | setLocal (l : List FeedbackItem)
  | toastMsg (title : String) (destructive : Bool)
  | subscribeChannel (topic : String)
  | removeChannel (topic : String)
  | fetchCall
deriving DecidableEq

/-- The local list produced by the approve/unapprove setFeedback updater:
every item with a matching id becomes a copy carrying the new approved flag,
all other items are unchanged. -/
def applyApprove (l : List FeedbackItem) (id : String) (b : Bool) : List FeedbackItem :=
  l.map (fun item => if item.id == id then { item with approved := b } else item)

/-- The local list produced by the delete setFeedback updater: the previous
list filtered to the items whose id differs from the staged target id. -/
def applyDelete (l : List FeedbackItem) (fid : String) : List FeedbackItem :=
  l.filter (fun item => item.id != fid)

/-- The admin `updateFeedbackStatus` handler as its event trace and final
local list.  The remote `update` is awaited first; the success path then
installs the new list and toasts, while the catch path (remote failure)
installs the very same list and raises the destructive "UI Updated" toast;
`finally` resets the updating marker. -/
def updateFeedbackStatus (prev : List FeedbackItem) (id : String)
    (approved : Bool) (remoteFails : Bool) : List Ev × List FeedbackItem :=
  if remoteFails then
    ([Ev.setUpdating (some id), Ev.remoteUpdate id approved,
      Ev.setLocal (applyApprove prev id approved),
      Ev.toastMsg "UI Updated" true, Ev.setUpdating none],
     applyApprove prev id approved)
  else
    ([Ev.setUpdating (some id), Ev.remoteUpdate id approved,
      Ev.setLocal (applyApprove prev id approved),
      Ev.toastMsg (if approved then "Feedback Approved" else "Feedback Unapproved") false,
      Ev.setUpdating none],
     applyApprove prev id approved)

/-- The admin `deleteFeedback` handler: returns immediately when no target id
is staged; otherwise the remote `delete` is awaited first and the filtered
list is installed on both the success and the catch path. -/
def deleteFeedback (prev : List FeedbackItem) (toDelete : Option String)
    (remoteFails : Bool) : List Ev × List FeedbackItem :=
  match toDelete with
  | none => ([], prev)
  | some fid =>
    if remoteFails then
      ([Ev.setUpdating (some fid), Ev.remoteDelete fid,
        Ev.setLocal (applyDelete prev fid),
        Ev.toastMsg "UI Updated" true, Ev.setUpdating none],
       applyDelete prev fid)
    else
      ([Ev.setUpdating (some fid), Ev.remoteDelete fid,
        Ev.setLocal (applyDelete prev fid),
        Ev.toastMsg "Feedback Deleted" false, Ev.setUpdating none],
       applyDelete prev fid)

/-- The customer `handleFeedbackSubmit` handler as its event trace: an empty
comment is rejected with a toast before anything else; a missing user likewise;
otherwise the insert is issued with `approved: false` and followed by the
success or failure toast. -/
def handleFeedbackSubmit (comment : String) (rating : Nat)
    (user : Option String) (insertFails : Bool) : List Ev :=
  if comment == "" then [Ev.toastMsg "Comment required" true]
  else
    match user with
    | none => [Ev.toastMsg "Not logged in" true]
    | some uid =>
      if insertFails then
        [Ev.remoteInsert uid rating comment false, Ev.toastMsg "Submission failed" true]
      else
        [Ev.remoteInsert uid rating comment false, Ev.toastMsg "Feedback sent" false]

/-- Events performed when `TestimonialSection` mounts: the component contains
two effect hooks, each of which creates and subscribes a realtime channel on
the `feedback` table; only the second one also issues the initial fetch. -/
def testimonialMountTrace : List Ev :=
  [Ev.subscribeChannel "public:feedback", Ev.subscribeChannel "public:feedback",
   Ev.fetchCall]

/-- Events performed when `TestimonialSection` unmounts: each effect cleanup
removes its channel. -/
def testimonialUnmountTrace : List Ev :=
  [Ev.removeChannel "public:feedback", Ev.removeChannel "public:feedback"]

def isSetLocal : Ev → Bool
  | Ev.setLocal _ => true
  | _ => false

def isRemoteWrite : Ev → Bool
  | Ev.remoteUpdate _ _ => true
  | Ev.remoteDelete _ => true
  | _ => false

def isWarnToast : Ev → Bool
  | Ev.toastMsg t d => t == "UI Updated" && d
  | _ => false

def isSubscribeEv : Ev → Bool
  | Ev.subscribeChannel _ => true
  | _ => false

def isFetchEv : Ev → Bool
  | Ev.fetchCall => true
  | _ => false

def isRemoveEv : Ev → Bool
  | Ev.removeChannel _ => true
  | _ => false

def isRemoteInsertEv : Ev → Bool
  | Ev.remoteInsert _ _ _ _ => true
  | _ => false

def isInsertApprovedTrue : Ev → Bool
  | Ev.remoteInsert _ _ _ a => a
  | _ => false

/-- Index of the first event satisfying `p`. -/
def findIdxB (p : Ev → Bool) : List Ev → Option Nat
  | [] => none
  | e :: es => if p e then some 0 else (findIdxB p es).map (· + 1)

/-- Number of events satisfying `p`. -/
def countB (p : Ev → Bool) : List Ev → Nat
  | [] => 0
  | e :: es => (if p e then 1 else 0) + countB p es

def optIdxLt : Option Nat → Option Nat → Bool
  | some i, some j => decide (i < j)
  | _, _ => false

/-- Phase (a) strictly precedes phase (b): some local install occurs strictly
before the first remote write. -/
def localBeforeRemote (tr : List Ev) : Bool :=
  optIdxLt (findIdxB isSetLocal tr) (findIdxB isRemoteWrite tr)

/-- The reverse ordering: the first remote write occurs strictly before the
first local install. -/
def remoteBeforeLocal (tr : List Ev) : Bool :=
  optIdxLt (findIdxB isRemoteWrite tr) (findIdxB isSetLocal tr)

/-- C1 counterexample: for the concrete approve mutation on an empty list and
for the concrete delete mutation, no local install precedes the remote write
in the event trace — the remote write is issued first, so the claimed phase
order (a) before (b) fails at this input. -/
theorem C1_counterexample :
    localBeforeRemote (updateFeedbackStatus [] "f1" true false).1 = false ∧
    localBeforeRemote (deleteFeedback [] (some "f1") false).1 = false := by
  decide

/-- C1 (amended): for every approve/unapprove/delete mutation handled by the
admin component, the new local record list reflecting the intended change is
installed unconditionally (on success and on failure of the remote write),
but the remote write is issued strictly before the local install, not after
it. -/
theorem C1_local_install_after_remote_write (prev : List FeedbackItem)
    (id fid : String) (b fails : Bool) :
    remoteBeforeLocal (updateFeedbackStatus prev id b fails).1 = true ∧
    Ev.setLocal (applyApprove prev id b) ∈ (updateFeedbackStatus prev id b fails).1 ∧
    (updateFeedbackStatus prev id b fails).2 = applyApprove prev id b ∧
    remoteBeforeLocal (deleteFeedback prev (some fid) fails).1 = true ∧
    Ev.setLocal (applyDelete prev fid) ∈ (deleteFeedback prev (some fid) fails).1 ∧
    (deleteFeedback prev (some fid) fails).2 = applyDelete prev fid := by
  cases fails <;>
    exact ⟨rfl, by simp [updateFeedbackStatus], rfl, rfl,
           by simp [deleteFeedback], rfl⟩

/-- C3 evidence: mounting the testimonial view establishes two
change-notification subscriptions on the feedback table (one per duplicated
effect hook), not exactly one; the initial fetch is indeed issued directly,
exactly once, and both channels are removed on unmount. -/
theorem C3_two_subscriptions_on_mount :
    countB isSubscribeEv testimonialMountTrace = 2 ∧
    countB isFetchEv testimonialMountTrace = 1 ∧
    countB isRemoveEv testimonialUnmountTrace = 2 := by
  decide

/-- C4: when the remote write fails, the local list still reflects the
intended change (the mapped list for approve/unapprove, the filtered list for
delete), the destructive "UI Updated" (may-not-be-persisted) warning is
emitted exactly once, and the deleted item does not reappear in the installed
list. -/
theorem C4_failed_mutation_keeps_local_change (prev : List FeedbackItem)
    (id fid : String) (b : Bool) :
    (updateFeedbackStatus prev id b true).2 = applyApprove prev id b ∧
    countB isWarnToast (updateFeedbackStatus prev id b true).1 = 1 ∧
    (deleteFeedback prev (some fid) true).2 = applyDelete prev fid ∧
    countB isWarnToast (deleteFeedback prev (some fid) true).1 = 1 ∧
    ((deleteFeedback prev (some fid) true).2.all (fun item => item.id != fid)) = true := by
  refine ⟨rfl, rfl, rfl, rfl, ?_⟩
  simp [deleteFeedback, applyDelete, List.all_eq_true, List.mem_filter]

/-- C5 counterexample: with a non-empty previously installed admin list, a
failing primary query leaves that list installed unchanged — the installed
record list after the failing run is not empty, contrary to the claim. -/
theorem C5_counterexample :
    ¬ (fetchFeedback
        [{ id := "a", created_at := 1, name := "N", email := "E", message := "m",
           approved := true, user_id := none, product_id := none, rating := 5,
           product_name := "General Feedback" }]
        [] [] true (fun _ => false)).installed = [] := by
  decide

/-- C5 (amended): when the primary query fails, both pipelines emit the
user-visible error notification and terminate normally (the failure is caught
at the operation boundary); the testimonial pipeline installs an empty record
list, while the admin pipeline leaves the previously installed list unchanged
— which is empty only on the initial load. -/
theorem C5_primary_failure_handling (fmt : Nat → String) (ft : List FeedbackRow)
    (pt : List ProfileRow) (pfail : Bool) (prev : List FeedbackItem)
    (lf : String → Bool) :
    (fetchApprovedFeedback fmt ft pt true pfail).installed = [] ∧
    (fetchApprovedFeedback fmt ft pt true pfail).toasts = ["Error"] ∧
    (fetchFeedback prev ft pt true lf).installed = prev ∧
    (fetchFeedback prev ft pt true lf).toasts = ["Error"] :=
  ⟨rfl, rfl, rfl, rfl⟩

/-- C8: every remote insert issued by the customer feedback submission path
carries `approved = false` (the trace contains no insert with a true approval
flag), and the moderator approve mutation is what sets the flag true: after
`updateFeedbackStatus _ id true _`, every item of the installed list whose id
matches is approved. -/
theorem C8_submission_inserts_unapproved (comment : String) (rating : Nat)
    (user : Option String) (ifail : Bool) (prev : List FeedbackItem)
    (id : String) (mfail : Bool) :
    countB isInsertApprovedTrue (handleFeedbackSubmit comment rating user ifail) = 0 ∧
    ((updateFeedbackStatus prev id true mfail).2.all
      (fun item => !(item.id == id) || item.approved)) = true := by
  constructor
  · unfold handleFeedbackSubmit
    split
    · rfl
    · split
      · rfl
      · split <;> rfl
  · have h2 : (updateFeedbackStatus prev id true mfail).2 = applyApprove prev id true := by
      cases mfail <;> rfl
    rw [h2]
    simp only [applyApprove, List.all_eq_true, List.mem_map]
    rintro x ⟨a, _, rfl⟩
    by_cases h : a.id == id <;> simp [h]

/-- C9: a submission with an empty comment is rejected before any remote
call: the whole handler trace is the single immediate destructive
"Comment required" toast, and in particular contains no remote insert. -/
theorem C9_empty_comment_validation (rating : Nat) (user : Option String)
    (ifail : Bool) :
    handleFeedbackSubmit "" rating user ifail = [Ev.toastMsg "Comment required" true] ∧
    countB isRemoteInsertEv (handleFeedbackSubmit "" rating user ifail) = 0 := by
  constructor <;> rfl

/-- C10: in the admin view the approved field of the enriched record is the strict
boolean `raw === true`: it is a `Bool` by construction and is `true` exactly
when the raw value is the literal `true`, so `null`, `undefined` and truthy
non-boolean raw values all map to `false`. -/
theorem C10_strict_boolean_approved (pt : List ProfileRow) (lf : String → Bool)
    (r : FeedbackRow) :
    (adminEnrichRow pt lf r).approved = jsStrictEqTrue r.approved ∧
    ((adminEnrichRow pt lf r).approved = true ↔ r.approved = Raw.vTrue) := by
  refine ⟨rfl, ?_⟩
  have hra : (adminEnrichRow pt lf r).approved = jsStrictEqTrue r.approved := rfl
  rw [hra]
  cases hr : r.approved <;> simp [jsStrictEqTrue, hr]

/-- The author-enrichment pass touches only the `author` field: id and role
survive unchanged. -/
theorem enrichAuthor_id_role (rows : List FeedbackRow) (fetched : List ProfileRow)
    (t : Testimonial) :
    (enrichAuthor rows fetched t).id = t.id ∧ (enrichAuthor rows fetched t).role = t.role := by
  unfold enrichAuthor
  split
  · split
    · split <;> exact ⟨rfl, rfl⟩
    · exact ⟨rfl, rfl⟩
  · exact ⟨rfl, rfl⟩

/-- C2 counterexample: an admin fetch over two feedback rows with distinct
non-null identity references issues two `profiles` queries, refuting "at most
one secondary lookup call per pipeline run" for the fetch-enrich pipeline of
the admin view. -/
theorem C2_counterexample :
    ¬ (fetchFeedback []
        [{ id := "a", comment := "x", rating := 5, user_id := some "u1",
           product_id := none, created_at := 2, approved := Raw.vTrue, products := none },
         { id := "b", comment := "y", rating := 4, user_id := some "u2",
           product_id := none, created_at := 1, approved := Raw.vTrue, products := none }]
        [] false (fun _ => false)).profileQueries ≤ 1 := by
  decide

/-- C2 (amended): the testimonial pipeline issues at most one batched
`profiles` lookup per run regardless of the number of rows, while the admin
pipeline issues one `profiles` query per returned row with a truthy identity
reference — one query per such row, not a single batched call. -/
theorem C2_secondary_lookup_counts (fmt : Nat → String) (ft : List FeedbackRow)
    (pt : List ProfileRow) (pfail : Bool) (prev : List FeedbackItem)
    (lf : String → Bool) :
    (fetchApprovedFeedback fmt ft pt false pfail).profileQueries ≤ 1 ∧
    (fetchFeedback prev ft pt false lf).profileQueries =
      ft.countP (fun r => jsTruthy r.user_id) := by
  constructor
  · by_cases h1 : (selectApprovedFeedback ft).isEmpty = true
    · simp [fetchApprovedFeedback, h1]
    · by_cases h2 : ((selectApprovedFeedback ft).filterMap FeedbackRow.user_id).isEmpty = true
      · simp [fetchApprovedFeedback, h1, h2]
      · by_cases h3 : pfail = true <;> simp [fetchApprovedFeedback, h1, h2, h3]
  · have hperm := List.perm_insertionSort rowLatest ft
    calc (fetchFeedback prev ft pt false lf).profileQueries
        = (sortFeedbackDesc ft).countP (fun r => jsTruthy r.user_id) := rfl
      _ = ft.countP (fun r => jsTruthy r.user_id) :=
          hperm.countP_eq (fun r => jsTruthy r.user_id)

/-- C6: a primary row whose identity reference is null, or truthy but absent
from (or unresolvable by) the secondary lookup, is enriched with the fixed
fallback placeholders: `"Anonymous Customer"` for the testimonial author and
`"Anonymous User"`/`"No Email"` for the admin record — total `String` fields,
never null or undefined. -/
theorem C6_fallback_display_names (fmt : Nat → String) (rows : List FeedbackRow)
    (fetched pt : List ProfileRow) (lf : String → Bool) (r : FeedbackRow)
    (hmem : r ∈ rows) (hnd : (rows.map FeedbackRow.id).Nodup)
    (habs : ∀ uid, r.user_id = some uid → ∀ p ∈ fetched, p.id ≠ uid)
    (habs2 : ∀ uid, r.user_id = some uid → lf uid = true ∨ ∀ p ∈ pt, p.id ≠ uid) :
    (enrichAuthor rows fetched (mkTestimonial fmt r)).author = "Anonymous Customer" ∧
    (adminEnrichRow pt lf r).name = "Anonymous User" ∧
    (adminEnrichRow pt lf r).email = "No Email" := by
  refine ⟨?_, ?_⟩
  · unfold enrichAuthor
    split
    · next fb hfind =>
      have hfbmem := List.mem_of_find?_eq_some hfind
      have hp := List.find?_some hfind
      have hid : fb.id = r.id := by simpa [mkTestimonial] using hp
      obtain rfl : fb = r := List.inj_on_of_nodup_map hnd hfbmem hmem hid
      by_cases ht : jsTruthy fb.user_id = true
      · rcases hu : fb.user_id with _ | uid
        · rw [hu] at ht; simp [jsTruthy] at ht
        · have hlk : profileMapLookup fetched uid = none := by
            unfold profileMapLookup
            rw [List.find?_eq_none]
            intro p hpmem
            simp [habs uid hu p (List.mem_reverse.mp hpmem)]
          simp [ht, hu, hlk, mkTestimonial]
      · simp [ht, mkTestimonial]
    · next hfind => rfl
  · have hne : ∀ h : jsTruthy r.user_id = true,
        (adminEnrichRow pt lf r).name = "Anonymous User" ∧
        (adminEnrichRow pt lf r).email = "No Email" := by
      intro ht
      rcases hu : r.user_id with _ | uid
      · rw [hu] at ht; simp [jsTruthy] at ht
      · rcases habs2 uid hu with hlf | habs3
        · constructor <;> simp [adminEnrichRow, ht, hu, hlf]
        · have hsp : singleProfile pt uid = none := by
            unfold singleProfile
            have hnilf : pt.filter (fun p => p.id == uid) = [] := by
              rw [List.filter_eq_nil_iff]
              intro p hpmem
              simp [habs3 p hpmem]
            rw [hnilf]
          by_cases hlf2 : lf uid = true
          · constructor <;> simp [adminEnrichRow, ht, hu, hlf2]
          · constructor <;> simp [adminEnrichRow, ht, hu, hlf2, hsp]
    by_cases ht : jsTruthy r.user_id = true
    · exact hne ht
    · constructor <;> simp [adminEnrichRow, ht]

/-- C6 witness: the fallback theorem applied to a concrete single row whose
identity reference resolves nowhere. -/
theorem C6_witness :
    (enrichAuthor
        [{ id := "a", comment := "x", rating := 5, user_id := some "u1",
           product_id := none, created_at := 1, approved := Raw.vTrue, products := none }]
        []
        (mkTestimonial (fun _ => "")
          { id := "a", comment := "x", rating := 5, user_id := some "u1",
            product_id := none, created_at := 1, approved := Raw.vTrue,
            products := none })).author = "Anonymous Customer" ∧
    (adminEnrichRow [] (fun _ => false)
        { id := "a", comment := "x", rating := 5, user_id := some "u1",
          product_id := none, created_at := 1, approved := Raw.vTrue,
          products := none }).name = "Anonymous User" ∧
    (adminEnrichRow [] (fun _ => false)
        { id := "a", comment := "x", rating := 5, user_id := some "u1",
          product_id := none, created_at := 1, approved := Raw.vTrue,
          products := none }).email = "No Email" :=
  C6_fallback_display_names (fun _ => "")
    [{ id := "a", comment := "x", rating := 5, user_id := some "u1",
       product_id := none, created_at := 1, approved := Raw.vTrue, products := none }]
    [] [] (fun _ => false)
    { id := "a", comment := "x", rating := 5, user_id := some "u1",
      product_id := none, created_at := 1, approved := Raw.vTrue, products := none }
    (by simp) (by simp)
    (by intro uid _ p hp; simp at hp)
    (by intro uid _; exact Or.inr (by intro p hp; simp at hp))

/-- C7: the public testimonial fetch yields only rows selected with
`approved = true`, ordered most-recent-first by creation timestamp, at most
10 of them, and the installed testimonials correspond one-to-one, in order,
to those rows with role `"on <ProductName>"` when a product name is attached
and `"on TommyFX Beauty"` otherwise. -/
theorem C7_approved_ordered_limited (fmt : Nat → String) (ft : List FeedbackRow)
    (pt : List ProfileRow) (pfail : Bool) :
    ((selectApprovedFeedback ft).all (fun r => jsStrictEqTrue r.approved)) = true ∧
    (selectApprovedFeedback ft).length ≤ 10 ∧
    List.Sorted rowLatest (selectApprovedFeedback ft) ∧
    (fetchApprovedFeedback fmt ft pt false pfail).installed.map (fun t => (t.id, t.role)) =
      (selectApprovedFeedback ft).map (fun r => (r.id, roleOf r)) := by
  refine ⟨?_, ?_, ?_, ?_⟩
  · rw [List.all_eq_true]
    intro x hx
    have hx1 : x ∈ List.insertionSort rowLatest
        (ft.filter (fun r => jsStrictEqTrue r.approved)) :=
      List.take_subset _ _ hx
    have hx2 : x ∈ ft.filter (fun r => jsStrictEqTrue r.approved) :=
      (List.perm_insertionSort rowLatest _).mem_iff.mp hx1
    exact (List.mem_filter.mp hx2).2
  · exact List.length_take_le _ _
  · exact List.Pairwise.sublist (List.take_sublist _ _)
      (List.sorted_insertionSort rowLatest _)
  · by_cases h1 : (selectApprovedFeedback ft).isEmpty = true
    · have hnil : selectApprovedFeedback ft = [] := List.isEmpty_iff.mp h1
      simp [fetchApprovedFeedback, h1, hnil]
    · by_cases h2 : ((selectApprovedFeedback ft).filterMap FeedbackRow.user_id).isEmpty = true
      · simp [fetchApprovedFeedback, h1, h2, List.map_map]
        intro a _
        exact ⟨rfl, rfl⟩
      · by_cases h3 : pfail = true
        · simp [fetchApprovedFeedback, h1, h2, h3, List.map_map]
          intro a _
          exact ⟨rfl, rfl⟩
        · simp [fetchApprovedFeedback, h1, h2, h3, List.map_map]
          intro a _
          exact ⟨(enrichAuthor_id_role _ _ _).1, (enrichAuthor_id_role _ _ _).2⟩
